import Mathlib

/-!
# DefaultSceneLayer: the authored scene of `DefaultSceneLayer.cpp`

`DefaultSceneLayer::_CreateScene` is straight-line authoring code: one constant
toggle, then a fixed sequence of calls into the engine (resource manager,
scene, game objects, components, colliders).  It is embedded here as the
sequence of engine calls it performs, one `Op` per call, in statement order.
The local variables of the C++ function that hold game objects are the
constructors of `Obj`; resources are referred to by the name of the local
variable that holds them.

The engine itself (`Scene`, `GameObject`, `ComponentManager`, `RigidBody`, ...)
is not part of the file.  Where a property needs the behaviour of an engine
call, that behaviour is modelled separately and marked as such.
-/

namespace DefaultSceneLayer

/-! ## Values -/

/-- A decimal literal of the source (`0.2`, `-11.5f`, `2000.0f`, `3`), kept exactly
as an integer number of thousandths.  Every literal of the file has at most one
decimal digit, so no literal is rounded. -/
structure Scalar where
  milli : Int
deriving DecidableEq, Repr

instance : OfNat Scalar n := ⟨⟨(n : Int) * 1000⟩⟩

instance : Neg Scalar := ⟨fun s => ⟨-s.milli⟩⟩

instance : OfScientific Scalar :=
  ⟨fun m s e => if s then ⟨((m * 10 ^ (3 - e) / 10 ^ (e - 3) : Nat) : Int)⟩
                else ⟨((m * 10 ^ (3 + e) : Nat) : Int)⟩⟩

/-- The three components of a `glm::vec3`. -/
structure Vec3 where
  x : Scalar
  y : Scalar
  z : Scalar
deriving DecidableEq, Repr

/-- The one-argument constructor `glm::vec3(s)`: the same scalar on all three axes. -/
def Vec3.splat (s : Scalar) : Vec3 := ⟨s, s, s⟩

/-- The `GameObject::Sptr` locals of `_CreateScene`. -/
inductive Obj where
  | camera | plane | character | enemyMage | rock | sword | grate | lever
  | spike1 | spike2
  | wall1 | wall2 | wall3 | wall4 | wall5 | wall6 | wall7 | wall8
deriving DecidableEq, Repr

/-- The component types named as `T` in an `Add<T>()` or `RegisterType<T>()` of the
file, and `Camera`, which the file names only in the commented-out
`camera->Add<Camera>()`. -/
inductive CompType where
  | Camera | SimpleCameraControl | RenderComponent | RigidBody
  | JumpBehaviour | CharacterMovement
deriving DecidableEq, Repr

/-- The values of `RigidBodyType`. -/
inductive RigidBodyType where
  | Static | Dynamic | Kinematic
deriving DecidableEq, Repr

/-- The collider descriptors the file includes headers for; `box` carries the
half-extents passed to `BoxCollider::Create`. -/
inductive Collider where
  | box (halfExtents : Vec3)
  | plane
  | sphere
  | convexMesh
  | cylinder
deriving DecidableEq, Repr

/-- The resource classes passed to `ResourceManager::CreateAsset<...>`. -/
inductive AssetKind where
  | ShaderProgram | MeshResource | Texture2D | Texture1D | TextureCube
  | Texture3D | Material
deriving DecidableEq, Repr

/-! ## Engine calls -/

/-- One call made by `_CreateScene`.  Component and collider handles are named by
the game object they belong to: `setMesh o m` is `renderer->SetMesh(m)` for the
`renderer` returned by `o->Add<RenderComponent>()`, and `colliderSetScale o v` is
the call on the handle returned by `AddCollider` on the `RigidBody` of `o`. -/
inductive Op where
  /-- The call `Application::Get()`. -/
  | applicationGet
  /-- The call `app.LoadScene(path)`, the overload taking a file path. -/
  | appLoadSceneFile (path : String)
  /-- The call `app.LoadScene(scene)`, the overload taking the authored scene. -/
  | appLoadScene
  /-- The statement `var = ResourceManager::CreateAsset<kind>(args)`. -/
  | createAsset (var : String) (kind : AssetKind) (args : List String)
  /-- The call `var->method(args)` on a resource; method `Name` is the assignment to
  its `Name` field. -/
  | assetCall (var : String) (method : String) (args : List String)
  /-- The statement `scene = std::make_shared<Scene>()`. -/
  | makeScene
  | setSkyboxTexture (tex : String)
  | setSkyboxShader (shader : String)
  /-- The call `scene->SetSkyboxRotation(glm::rotate(MAT4_IDENTITY, angle, axis))`. -/
  | setSkyboxRotation (angle : String) (axis : Vec3)
  | setColorLUT (lut : String)
  /-- The call `ComponentManager::RegisterType<T>()`. -/
  | registerType (T : CompType)
  /-- The call `scene->Lights.resize(n)`. -/
  | lightsResize (n : Nat)
  /-- The assignment `scene->Lights[i].Position = v`. -/
  | lightSetPosition (i : Nat) (v : Vec3)
  /-- The assignment `scene->Lights[i].Color = v`. -/
  | lightSetColor (i : Nat) (v : Vec3)
  /-- The assignment `scene->Lights[i].Range = r`. -/
  | lightSetRange (i : Nat) (r : Scalar)
  /-- The statement `var = scene->MainCamera->GetGameObject()->SelfRef()`. -/
  | mainCameraObject (var : Obj)
  /-- The statement `var = scene->CreateGameObject(name)`. -/
  | createGameObject (var : Obj) (name : String)
  /-- The call `o->SetPostion(v)` (spelled so in the engine). -/
  | setPostion (o : Obj) (v : Vec3)
  | setRotation (o : Obj) (v : Vec3)
  | setScale (o : Obj) (v : Vec3)
  | lookAt (o : Obj) (target : Vec3)
  /-- The call `o->Add<T>(...)`; `rbType` is the explicit `RigidBodyType` argument, if
  one is written. -/
  | add (o : Obj) (T : CompType) (rbType : Option RigidBodyType)
  | setMesh (o : Obj) (mesh : String)
  | setMaterial (o : Obj) (material : String)
  /-- The call `physics->AddCollider(c)` on the `RigidBody` of `o`. -/
  | addCollider (o : Obj) (c : Collider)
  | colliderSetPosition (o : Obj) (v : Vec3)
  | colliderSetScale (o : Obj) (v : Vec3)
  | guiSetDefaultTexture (tex : String)
  | guiSetDefaultBorderRadius (r : Nat)
  /-- The call `ResourceManager::SaveManifest(path)`. -/
  | saveManifest (path : String)
  /-- The call `scene->Save(path)`. -/
  | save (path : String)
deriving DecidableEq, Repr

/-! ## The statements of `_CreateScene`, in order -/

/-- Lines 100-168: the ten shader programs, each followed by its `SetDebugName`. -/
def shaders : List Op :=
  [ .createAsset "reflectiveShader" .ShaderProgram
      ["shaders/vertex_shaders/basic.glsl", "shaders/fragment_shaders/frag_environment_reflective.glsl"],
    .assetCall "reflectiveShader" "SetDebugName" ["Reflective"],
    .createAsset "basicShader" .ShaderProgram
      ["shaders/vertex_shaders/basic.glsl", "shaders/fragment_shaders/frag_blinn_phong_textured.glsl"],
    .assetCall "basicShader" "SetDebugName" ["Blinn-phong"],
    .createAsset "AShader" .ShaderProgram
      ["shaders/vertex_shaders/basic.glsl", "shaders/fragment_shaders/frag_ambient.glsl"],
    .assetCall "AShader" "SetDebugName" ["Ambience"],
    .createAsset "DShader" .ShaderProgram
      ["shaders/vertex_shaders/basic.glsl", "shaders/fragment_shaders/frag_diffuse.glsl"],
    .assetCall "DShader" "SetDebugName" ["Diffuse"],
    .createAsset "specShader" .ShaderProgram
      ["shaders/vertex_shaders/basic.glsl", "shaders/fragment_shaders/textured_specular.glsl"],
    .assetCall "specShader" "SetDebugName" ["Textured-Specular"],
    .createAsset "foliageShader" .ShaderProgram
      ["shaders/vertex_shaders/foliage.glsl", "shaders/fragment_shaders/screendoor_transparency.glsl"],
    .assetCall "foliageShader" "SetDebugName" ["Foliage"],
    .createAsset "toonShader" .ShaderProgram
      ["shaders/vertex_shaders/basic.glsl", "shaders/fragment_shaders/toon_shading.glsl"],
    .assetCall "toonShader" "SetDebugName" ["Toon Shader"],
    .createAsset "displacementShader" .ShaderProgram
      ["shaders/vertex_shaders/displacement_mapping.glsl",
       "shaders/fragment_shaders/frag_tangentspace_normal_maps.glsl"],
    .assetCall "displacementShader" "SetDebugName" ["Displacement Mapping"],
    .createAsset "tangentSpaceMapping" .ShaderProgram
      ["shaders/vertex_shaders/basic.glsl", "shaders/fragment_shaders/frag_tangentspace_normal_maps.glsl"],
    .assetCall "tangentSpaceMapping" "SetDebugName" ["Tangent Space Mapping"],
    .createAsset "multiTextureShader" .ShaderProgram
      ["shaders/vertex_shaders/vert_multitextured.glsl", "shaders/fragment_shaders/frag_multitextured.glsl"],
    .assetCall "multiTextureShader" "SetDebugName" ["Multitexturing"] ]

/-- Lines 171-205: meshes, textures, the 1D lookup table, the cube map and the
skybox shader. -/
def meshesAndTextures : List Op :=
  [ .createAsset "monkeyMesh" .MeshResource ["Monkey.obj"],
    .createAsset "CharacterMesh" .MeshResource ["CharacterFinal.obj"],
    .createAsset "magemesh" .MeshResource ["MageEnemy.obj"],
    .createAsset "wallMesh" .MeshResource ["Wall.obj"],
    .createAsset "WallGrateMesh" .MeshResource ["WallGrate.obj"],
    .createAsset "SwordMesh" .MeshResource ["Sword.obj"],
    .createAsset "RockMesh" .MeshResource ["Rock.obj"],
    .createAsset "spikeMesh" .MeshResource ["SpikeTrap.obj"],
    .createAsset "LeverMesh" .MeshResource ["Lever.obj"],
    .createAsset "characterTex" .Texture2D ["textures/CharacterTexture.png"],
    .createAsset "mageTex" .Texture2D ["textures/MageEnemy.png"],
    .createAsset "swordTex" .Texture2D ["textures/SwordTexture.png"],
    .createAsset "wallTex" .Texture2D ["textures/Wall.png"],
    .createAsset "rockTex" .Texture2D ["textures/RockTexture.png"],
    .createAsset "grateTex" .Texture2D ["textures/WallGrateUVS.png"],
    .createAsset "floorTex" .Texture2D ["textures/StoneTexture.png"],
    .createAsset "spikeTex" .Texture2D ["textures/SpikeTexture.png"],
    .createAsset "LeverTex" .Texture2D ["textures/LeverTextures.png"],
    .createAsset "toonLut" .Texture1D ["luts/toon-1D.png"],
    .assetCall "toonLut" "SetWrap" ["WrapMode::ClampToEdge"],
    .createAsset "testCubemap" .TextureCube ["cubemaps/ocean/ocean.jpg"],
    .createAsset "skyboxShader" .ShaderProgram
      ["shaders/vertex_shaders/skybox_vert.glsl", "shaders/fragment_shaders/skybox_frag.glsl"] ]

/-- Lines 207-228: the empty scene, its skybox, the colour lookup tables, the
registration of `CharacterMovement` and the scene's colour LUT. -/
def sceneSetup : List Op :=
  [ .makeScene,
    .setSkyboxTexture "testCubemap",
    .setSkyboxShader "skyboxShader",
    .setSkyboxRotation "glm::half_pi<float>()" ⟨1.0, 0.0, 0.0⟩,
    .createAsset "CoolLut" .Texture3D ["luts/Cool.CUBE"],
    .createAsset "WarmLut" .Texture3D ["luts/Warm.CUBE"],
    .createAsset "CustomLut" .Texture3D ["luts/CustomFix.CUBE"],
    .createAsset "displacementMap" .Texture2D ["textures/displacement_map.png"],
    .createAsset "normalMap" .Texture2D ["textures/normal_map.png"],
    .createAsset "diffuseMap" .Texture2D ["textures/bricks_diffuse.png"],
    .registerType .CharacterMovement,
    .setColorLUT "CustomLut" ]

/-- Lines 233-297: the nine materials. -/
def materials : List Op :=
  [ .createAsset "stoneMat" .Material ["basicShader"],
    .assetCall "stoneMat" "Name" ["Box"],
    .assetCall "stoneMat" "Set" ["u_Material.Diffuse", "floorTex"],
    .assetCall "stoneMat" "Set" ["u_Material.Shininess", "0.1f"],
    .createAsset "characterMat" .Material ["basicShader"],
    .assetCall "characterMat" "Name" ["Character"],
    .assetCall "characterMat" "Set" ["u_Material.Diffuse", "characterTex"],
    .assetCall "characterMat" "Set" ["u_Material.Shininess", "0.3f"],
    .createAsset "mageMat" .Material ["AShader"],
    .assetCall "mageMat" "Name" ["M"],
    .assetCall "mageMat" "Set" ["u_Material.Diffuse", "mageTex"],
    .assetCall "mageMat" "Set" ["u_Material.Shininess", "0.3f"],
    .createAsset "wallMat" .Material ["basicShader"],
    .assetCall "wallMat" "Name" ["W"],
    .assetCall "wallMat" "Set" ["u_Material.Diffuse", "wallTex"],
    .assetCall "wallMat" "Set" ["u_Material.Shininess", "0.1f"],
    .createAsset "grateMat" .Material ["specShader"],
    .assetCall "grateMat" "Name" ["G"],
    .assetCall "grateMat" "Set" ["u_Material.Diffuse", "grateTex"],
    .assetCall "grateMat" "Set" ["u_Material.Shininess", "0.1f"],
    .createAsset "swordMat" .Material ["basicShader"],
    .assetCall "swordMat" "Name" ["Sword"],
    .assetCall "swordMat" "Set" ["u_Material.Diffuse", "swordTex"],
    .assetCall "swordMat" "Set" ["u_Material.Shininess", "0.1f"],
    .createAsset "spikeMat" .Material ["reflectiveShader"],
    .assetCall "spikeMat" "Name" ["spike"],
    .assetCall "spikeMat" "Set" ["u_Material.Diffuse", "spikeTex"],
    .assetCall "spikeMat" "Set" ["u_Material.Shininess", "0.5f"],
    .createAsset "leverMat" .Material ["specShader"],
    .assetCall "leverMat" "Name" ["G"],
    .assetCall "leverMat" "Set" ["u_Material.Diffuse", "LeverTex"],
    .assetCall "leverMat" "Set" ["u_Material.Shininess", "0.1f"],
    .createAsset "rockMat" .Material ["toonShader"],
    .assetCall "rockMat" "Name" ["Toon"],
    .assetCall "rockMat" "Set" ["u_Material.Diffuse", "rockTex"],
    .assetCall "rockMat" "Set" ["s_ToonTerm", "toonLut"],
    .assetCall "rockMat" "Set" ["u_Material.Shininess", "0.1f"],
    .assetCall "rockMat" "Set" ["u_Material.Steps", "8"] ]

/-- Lines 300-309: the lights. -/
def lights : List Op :=
  [ .lightsResize 3,
    .lightSetPosition 0 ⟨0.0, 1.0, 3.0⟩,
    .lightSetColor 0 ⟨1.0, 1.0, 1.0⟩,
    .lightSetRange 0 2000.0,
    .lightSetPosition 1 ⟨1.0, 0.0, 3.0⟩,
    .lightSetColor 1 ⟨0.2, 0.8, 0.1⟩,
    .lightSetPosition 2 ⟨0.0, 1.0, 3.0⟩,
    .lightSetColor 2 ⟨1.0, 0.2, 0.1⟩ ]

/-- Lines 312-318: the generated plane and sphere meshes. -/
def builtMeshes : List Op :=
  [ .createAsset "planeMesh" .MeshResource [],
    .assetCall "planeMesh" "AddParam" ["CreatePlane", "ZERO", "UNIT_Z", "UNIT_X", "glm::vec2(1.0f)"],
    .assetCall "planeMesh" "GenerateMesh" [],
    .createAsset "sphere" .MeshResource [],
    .assetCall "sphere" "AddParam" ["CreateIcoSphere", "ZERO", "ONE", "5"],
    .assetCall "sphere" "GenerateMesh" [] ]

/-- Lines 321-333: the scene's camera object. -/
def cameraBlock : List Op :=
  [ .mainCameraObject .camera,
    .setPostion .camera ⟨-8, 0, 10⟩,
    .setRotation .camera ⟨45, -6, -90⟩,
    .lookAt .camera (Vec3.splat 0.0),
    .add .camera .SimpleCameraControl none ]

/-- Lines 336-351: the object named "Plane". -/
def planeBlock : List Op :=
  [ .createGameObject .plane "Plane",
    .createAsset "tiledMesh" .MeshResource [],
    .assetCall "tiledMesh" "AddParam"
      ["CreatePlane", "ZERO", "UNIT_Z", "UNIT_X", "glm::vec2(60.0f)", "glm::vec2(20.0f)"],
    .assetCall "tiledMesh" "GenerateMesh" [],
    .add .plane .RenderComponent none,
    .setMesh .plane "tiledMesh",
    .setMaterial .plane "stoneMat",
    .add .plane .RigidBody none,
    .addCollider .plane (.box ⟨50.0, 50.0, 1.0⟩),
    .colliderSetPosition .plane ⟨0, 0, -1⟩ ]

/-- Lines 353-372: the object named "Character". -/
def characterBlock : List Op :=
  [ .createGameObject .character "Character",
    .setPostion .character ⟨-5.0, 0.0, 0.0⟩,
    .setRotation .character ⟨-90.0, 180.0, 180.0⟩,
    .setScale .character (Vec3.splat 0.2),
    .add .character .JumpBehaviour none,
    .add .character .CharacterMovement none,
    .add .character .RenderComponent none,
    .setMesh .character "CharacterMesh",
    .setMaterial .character "characterMat",
    .add .character .RigidBody (some .Dynamic),
    .addCollider .character .convexMesh,
    .colliderSetScale .character (Vec3.splat 0.2) ]

/-- The shape shared by the blocks of lines 374-487: transform, renderer, a
static rigid body with one convex-mesh collider scaled by `colliderScale`. -/
def staticMeshBlock (o : Obj) (name : String) (pos rot : Vec3) (scale : Scalar)
    (mesh material : String) (colliderScale : Scalar) : List Op :=
  [ .createGameObject o name,
    .setPostion o pos,
    .setRotation o rot,
    .setScale o (Vec3.splat scale),
    .add o .RenderComponent none,
    .setMesh o mesh,
    .setMaterial o material,
    .add o .RigidBody (some .Static),
    .addCollider o .convexMesh,
    .colliderSetScale o (Vec3.splat colliderScale) ]

/-- Lines 374-487: "Enemy", "Rock", "sword", "Grate", "Lever", "spike", "spike 2". -/
def staticMeshBlocks : List Op :=
  staticMeshBlock .enemyMage "Enemy" ⟨4.0, 0.0, 3.0⟩ ⟨-90.0, 180.0, 0.0⟩ 0.1 "magemesh" "mageMat" 0.1
  ++ staticMeshBlock .rock "Rock" ⟨0.0, 0.0, 0.0⟩ ⟨-90.0, 180.0, 0.0⟩ 0.5 "RockMesh" "rockMat" 0.5
  ++ staticMeshBlock .sword "sword" ⟨0.0, -0.4, 4.0⟩ ⟨80.0, 180.0, 0.0⟩ 0.3 "SwordMesh" "swordMat" 0.3
  ++ staticMeshBlock .grate "Grate" ⟨-7.0, 0.0, 0.0⟩ ⟨-90.0, -180.0, 180.0⟩ 0.5
      "WallGrateMesh" "grateMat" 0.5
  ++ staticMeshBlock .lever "Lever" ⟨-4.0, -5.0, 0.0⟩ ⟨-90.0, -180.0, 90.0⟩ 0.5
      "LeverMesh" "leverMat" 0.5
  ++ staticMeshBlock .spike1 "spike" ⟨4.0, -6.0, 0.0⟩ ⟨-90.0, -180.0, 90.0⟩ 0.5
      "spikeMesh" "spikeMat" 0.5
  ++ staticMeshBlock .spike2 "spike 2" ⟨1.0, 6.0, 0.0⟩ ⟨-90.0, -180.0, 90.0⟩ 0.5
      "spikeMesh" "spikeMat" 0.5

/-- The shape shared by the blocks of lines 489-581: a wall has a transform and a
renderer with `wallMesh` and `wallMat`, and nothing else. -/
def wallBlock (o : Obj) (name : String) (pos rot : Vec3) : List Op :=
  [ .createGameObject o name,
    .setPostion o pos,
    .setRotation o rot,
    .setScale o (Vec3.splat 0.8),
    .add o .RenderComponent none,
    .setMesh o "wallMesh",
    .setMaterial o "wallMat" ]

/-- Lines 489-581: "Wall 1" to "Wall 8". -/
def wallBlocks : List Op :=
  wallBlock .wall1 "Wall 1" ⟨-7.0, 3.5, 0.0⟩ ⟨-90.0, -180.0, 180.0⟩
  ++ wallBlock .wall2 "Wall 2" ⟨-7.0, -11.5, 0.0⟩ ⟨-90.0, -180.0, 180.0⟩
  ++ wallBlock .wall3 "Wall 3" ⟨-6.5, -11.5, 0.0⟩ ⟨-90.0, -180.0, 90.0⟩
  ++ wallBlock .wall4 "Wall 4" ⟨-6.5, 11.5, 0.0⟩ ⟨-90.0, -180.0, 90.0⟩
  ++ wallBlock .wall5 "Wall 5" ⟨3, 11.5, 0.0⟩ ⟨-90.0, -180.0, 90.0⟩
  ++ wallBlock .wall6 "Wall 6" ⟨3, -11.5, 0.0⟩ ⟨-90.0, -180.0, 90.0⟩
  ++ wallBlock .wall7 "Wall 7" ⟨12.0, 3.0, 0.0⟩ ⟨-90.0, -180.0, 180.0⟩
  ++ wallBlock .wall8 "Wall 8" ⟨12.0, -11.0, 0.0⟩ ⟨-90.0, -180.0, 180.0⟩

/-- Lines 591-600: GUI defaults, then the manifest, the scene file and the hand-over
of the scene to the application. -/
def finish : List Op :=
  [ .createAsset "(temporary)" .Texture2D ["textures/ui-sprite.png"],
    .guiSetDefaultTexture "(temporary)",
    .guiSetDefaultBorderRadius 8,
    .saveManifest "scene-manifest.json",
    .save "scene.json",
    .appLoadScene ]

/-- The `else` branch of `_CreateScene` (lines 98-601). -/
def generateScene : List Op :=
  shaders ++ meshesAndTextures ++ sceneSetup ++ materials ++ lights ++ builtMeshes
  ++ cameraBlock ++ planeBlock ++ characterBlock ++ staticMeshBlocks ++ wallBlocks
  ++ finish

/-- The calls of `DefaultSceneLayer::_CreateScene`, given whether a file `scene.json`
exists (the only thing the function reads from its environment):
`Application::Get()`, then the branch on `loadScene && exists("scene.json")`. -/
def _CreateScene (sceneJsonExists : Bool) : List Op :=
  let loadScene := false
  .applicationGet ::
    (if loadScene && sceneJsonExists then [.appLoadSceneFile "scene.json"]
     else generateScene)

/-- A JSON value, the type of the `config` argument (`nlohmann::json`). -/
inductive Json where
  | null
  | bool (b : Bool)
  | num (n : Int)
  | str (s : String)
  | arr (items : List Json)
  | obj (fields : List (String × Json))

/-- The calls of `DefaultSceneLayer::OnAppLoad(config)`: its body is the single call
`_CreateScene()`. -/
def OnAppLoad (_config : Json) (sceneJsonExists : Bool) : List Op :=
  _CreateScene sceneJsonExists

/-! ## Reading the statement sequence -/

/-- The component types `T` of the calls `o->Add<T>()`, in order. -/
def addsOn (o : Obj) (ops : List Op) : List CompType :=
  ops.filterMap fun
    | .add o1 T _ => if o1 = o then some T else none
    | _ => none

/-- The `RigidBodyType` arguments of the calls `o->Add<RigidBody>(...)`, in order;
`none` is a call with an empty argument list. -/
def rigidBodyArgsOn (o : Obj) (ops : List Op) : List (Option RigidBodyType) :=
  ops.filterMap fun
    | .add o1 .RigidBody a => if o1 = o then some a else none
    | _ => none

/-- The colliders passed to `AddCollider` on the `RigidBody` of `o`, in order. -/
def collidersOn (o : Obj) (ops : List Op) : List Collider :=
  ops.filterMap fun
    | .addCollider o1 c => if o1 = o then some c else none
    | _ => none

/-- The positions passed to `SetPosition` on the collider of `o`, in order. -/
def colliderPositionsOn (o : Obj) (ops : List Op) : List Vec3 :=
  ops.filterMap fun
    | .colliderSetPosition o1 v => if o1 = o then some v else none
    | _ => none

/-- The locals bound by a `CreateGameObject(name)` with the given name, in order. -/
def objectsNamed (name : String) (ops : List Op) : List Obj :=
  ops.filterMap fun
    | .createGameObject o n => if n = name then some o else none
    | _ => none

/-- The locals bound by `CreateGameObject`, in order of creation. -/
def createdObjects (ops : List Op) : List Obj :=
  ops.filterMap fun
    | .createGameObject o _ => some o
    | _ => none

/-- The game objects a statement sequence touches: the receivers of its
game-object, component and collider calls, without repetition, in order of
first use. -/
def touchedObjects (ops : List Op) : List Obj :=
  (ops.filterMap fun
    | .mainCameraObject o => some o
    | .createGameObject o _ => some o
    | .setPostion o _ => some o
    | .setRotation o _ => some o
    | .setScale o _ => some o
    | .lookAt o _ => some o
    | .add o _ _ => some o
    | .setMesh o _ => some o
    | .setMaterial o _ => some o
    | .addCollider o _ => some o
    | .colliderSetPosition o _ => some o
    | .colliderSetScale o _ => some o
    | _ => none).dedup

/-- The types `T` of the calls `ComponentManager::RegisterType<T>()`, in order. -/
def registrations (ops : List Op) : List CompType :=
  ops.filterMap fun
    | .registerType T => some T
    | _ => none

/-- The calls `o->Add<T>()` for the type `T`, on any object, in order. -/
def addCallsOf (T : CompType) (ops : List Op) : List Op :=
  ops.filter fun
    | .add _ T1 _ => decide (T1 = T)
    | _ => false

/-- Whether a call reads or writes `scene->Lights`. -/
def isLightOp : Op → Bool
  | .lightsResize _ => true
  | .lightSetPosition _ _ => true
  | .lightSetColor _ _ => true
  | .lightSetRange _ _ => true
  | _ => false

/-- The indices `i` of the accesses `scene->Lights[i]`, in order. -/
def lightIndices (ops : List Op) : List Nat :=
  ops.filterMap fun
    | .lightSetPosition i _ => some i
    | .lightSetColor i _ => some i
    | .lightSetRange i _ => some i
    | _ => none

/-- Whether a call is made on the scene or on something the scene owns (its
skybox, lookup table, lights, game objects, their components and colliders). -/
def mutatesScene : Op → Bool
  | .setSkyboxTexture _ => true
  | .setSkyboxShader _ => true
  | .setSkyboxRotation _ _ => true
  | .setColorLUT _ => true
  | .lightsResize _ => true
  | .lightSetPosition _ _ => true
  | .lightSetColor _ _ => true
  | .lightSetRange _ _ => true
  | .createGameObject _ _ => true
  | .setPostion _ _ => true
  | .setRotation _ _ => true
  | .setScale _ _ => true
  | .lookAt _ _ => true
  | .add _ _ _ => true
  | .setMesh _ _ => true
  | .setMaterial _ _ => true
  | .addCollider _ _ => true
  | .colliderSetPosition _ _ => true
  | .colliderSetScale _ _ => true
  | _ => false

/-- Whether a call is a `scene->Save(...)`. -/
def isSave : Op → Bool
  | .save _ => true
  | _ => false

/-- Whether a call is the path overload `app.LoadScene("...")`, which fills the
scene by deserialization. -/
def isLoadFromFile : Op → Bool
  | .appLoadSceneFile _ => true
  | _ => false

/-! ## Engine behaviour the file relies on

None of the engine's own sources is part of the file; what follows is the
behaviour the specification gives to the calls the file makes. -/

/-- The error taxonomy of the engine core. -/
inductive Error where
  | DuplicateComponent | AlreadyRegistered | UnknownType | CycleDetected
  | IndexOutOfRange | AssetLoadFailed
deriving DecidableEq, Repr

/-- Modelled from the spec: the default of the `RigidBodyType` parameter of
`RigidBody`, declared in `Gameplay/Physics/RigidBody.h` (not in the file).  The
file writes the empty argument list as `/*static by default*/`, and the
specification calls the body of "Plane" a static `RigidBody`. -/
def RigidBody.typeOfArg : Option RigidBodyType → RigidBodyType
  | none => .Static
  | some t => t

/-- Modelled from the spec: the `ComponentStore` of one game object (engine source
not in the file), the component types it holds in insertion order, at most one
instance per type. -/
abbrev ComponentStore := List CompType

/-- Modelled from the spec: `Add<T>()` of `ComponentStore` (engine source not in the
file), under the fail-fast policy the specification fixes: adding a type that is
already present fails with `DuplicateComponent`, otherwise the new component is
appended. -/
def ComponentStore.add (s : ComponentStore) (T : CompType) : Except Error ComponentStore :=
  if T ∈ s then .error .DuplicateComponent else .ok (s ++ [T])

/-- A run of `Add` calls on one store, stopping at the first failure. -/
def ComponentStore.addAll (s : ComponentStore) : List CompType → Except Error ComponentStore
  | [] => .ok s
  | T :: Ts =>
    match s.add T with
    | .ok s1 => ComponentStore.addAll s1 Ts
    | .error e => .error e

/-- Modelled from the spec: the process-wide `TypeRegistry` behind
`ComponentManager` (engine source not in the file), the registered types in
order of registration. -/
abbrev TypeRegistry := List CompType

/-- Modelled from the spec: `RegisterType<T>()` (engine source not in the file):
fails with `AlreadyRegistered` when `T` is already registered in this registry,
otherwise registers it. -/
def TypeRegistry.registerType (r : TypeRegistry) (T : CompType) : Except Error TypeRegistry :=
  if T ∈ r then .error .AlreadyRegistered else .ok (r ++ [T])

/-- A run of `RegisterType` calls on one registry, stopping at the first failure. -/
def TypeRegistry.registerAll (r : TypeRegistry) : List CompType → Except Error TypeRegistry
  | [] => .ok r
  | T :: Ts =>
    match r.registerType T with
    | .ok r1 => TypeRegistry.registerAll r1 Ts
    | .error e => .error e

/-- Modelled from the spec: the light slots of `Scene` (engine source not in the
file), tracked by their number `n`.  `Lights.resize(k)` makes it `k`; an access
`Lights[i]` needs `i < n` and fails with `IndexOutOfRange` otherwise; every other
call leaves the slots alone. -/
def lightsStep (n : Nat) : Op → Except Error Nat
  | .lightsResize k => .ok k
  | .lightSetPosition i _ => if i < n then .ok n else .error .IndexOutOfRange
  | .lightSetColor i _ => if i < n then .ok n else .error .IndexOutOfRange
  | .lightSetRange i _ => if i < n then .ok n else .error .IndexOutOfRange
  | _ => .ok n

/-- The number of light slots after a statement sequence that starts with `n`
slots, or the first `IndexOutOfRange`. -/
def lightsRun (n : Nat) : List Op → Except Error Nat
  | [] => .ok n
  | op :: ops =>
    match lightsStep n op with
    | .ok n1 => lightsRun n1 ops
    | .error e => .error e

/-- A rotation of a game object: either the Euler angles given to `SetRotation`, or
the rotation `LookAt` derives for an object at `eye` facing `target`. -/
inductive Rotation where
  | euler (angles : Vec3)
  | facing (eye target : Vec3)
deriving DecidableEq, Repr

/-- The local transform of a game object. -/
structure Transform where
  position : Vec3
  rotation : Rotation
  scale : Vec3
deriving DecidableEq, Repr

/-- Modelled from the spec: `GameObject::LookAt(target)` (engine source not in the
file): on the degenerate input, position equal to target, the rotation is left
unchanged; otherwise the rotation becomes the one derived from position and
target. -/
def Transform.lookAt (t : Transform) (target : Vec3) : Transform :=
  if t.position = target then t else { t with rotation := .facing t.position target }

/-- Modelled from the spec: the effect of one call on the transform of the game
object `o` (engine source not in the file): `SetPostion`, `SetRotation` and
`SetScale` on `o` overwrite the field, `LookAt` on `o` is `Transform.lookAt`, and
no other call of the file changes the transform of `o`. -/
def transformStep (o : Obj) (t : Transform) : Op → Transform
  | .setPostion o1 v => if o1 = o then { t with position := v } else t
  | .setRotation o1 v => if o1 = o then { t with rotation := .euler v } else t
  | .setScale o1 v => if o1 = o then { t with scale := v } else t
  | .lookAt o1 target => if o1 = o then t.lookAt target else t
  | _ => t

/-- The transform of `o` after a statement sequence, starting from `init`. -/
def transformOf (o : Obj) (init : Transform) (ops : List Op) : Transform :=
  ops.foldl (transformStep o) init

/-- The calls of a statement sequence made on the transform of `o`. -/
def transformCallsOn (o : Obj) (ops : List Op) : List Op :=
  ops.filter fun
    | .setPostion o1 _ => decide (o1 = o)
    | .setRotation o1 _ => decide (o1 = o)
    | .setScale o1 _ => decide (o1 = o)
    | .lookAt o1 _ => decide (o1 = o)
    | _ => false

/-! ## Scales, colliders and renderers per object -/

/-- The values passed to `o->SetScale(...)`, in order. -/
def scalesOn (o : Obj) (ops : List Op) : List Vec3 :=
  ops.filterMap fun
    | .setScale o1 v => if o1 = o then some v else none
    | _ => none

/-- The values passed to `SetScale` on the collider of `o`, in order. -/
def colliderScalesOn (o : Obj) (ops : List Op) : List Vec3 :=
  ops.filterMap fun
    | .colliderSetScale o1 v => if o1 = o then some v else none
    | _ => none

/-- The game objects whose `RigidBody` is given a `ConvexMeshCollider::Create()`, in
order of the `AddCollider` calls. -/
def convexMeshObjects (ops : List Op) : List Obj :=
  ops.filterMap fun
    | .addCollider o .convexMesh => some o
    | _ => none

/-- The name given to `CreateGameObject` for each local it binds, in order. -/
def createdNames (ops : List Op) : List (Obj × String) :=
  ops.filterMap fun
    | .createGameObject o n => some (o, n)
    | _ => none

/-- Whether a vector has the same value on all three axes. -/
def Vec3.isUniform (v : Vec3) : Bool :=
  decide (v.x = v.y) && decide (v.y = v.z)

/-- The meshes passed to `SetMesh` on the renderer of `o`, in order. -/
def meshesOn (o : Obj) (ops : List Op) : List String :=
  ops.filterMap fun
    | .setMesh o1 m => if o1 = o then some m else none
    | _ => none

/-- The materials passed to `SetMaterial` on the renderer of `o`, in order. -/
def materialsOn (o : Obj) (ops : List Op) : List String :=
  ops.filterMap fun
    | .setMaterial o1 m => if o1 = o then some m else none
    | _ => none

/-- The calls that make and fill the renderer of `o`: `o->Add<RenderComponent>()`,
`SetMesh` and `SetMaterial`, in order. -/
def rendererCallsOn (o : Obj) (ops : List Op) : List Op :=
  ops.filter fun
    | .add o1 .RenderComponent _ => decide (o1 = o)
    | .setMesh o1 _ => decide (o1 = o)
    | .setMaterial o1 _ => decide (o1 = o)
    | _ => false

/-- Whether a list of renderer calls is exactly one `Add<RenderComponent>()`, then one
`SetMesh`, then one `SetMaterial`. -/
def isAddMeshMaterial : List Op → Bool
  | [.add _ .RenderComponent _, .setMesh _ _, .setMaterial _ _] => true
  | _ => false

/-! ## Theorems -/

set_option maxRecDepth 200000

/-- Both branches of the `if` in `_CreateScene` being written down, the condition
`loadScene && exists` is false for either answer of the file system. -/
theorem createScene_eq (sceneJsonExists : Bool) :
    _CreateScene sceneJsonExists = .applicationGet :: generateScene := rfl

/-- A run of `Add` calls succeeds and appends all of them when the added types are
pairwise distinct and none is in the store beforehand. -/
theorem ComponentStore.addAll_ok (Ts : List CompType) :
    ∀ s : ComponentStore, Ts.Nodup → (∀ T ∈ Ts, T ∉ s) →
      ComponentStore.addAll s Ts = .ok (s ++ Ts) := by
  induction Ts with
  | nil => intro s _ _; simp [ComponentStore.addAll]
  | cons T Ts ih =>
    intro s hnd hs
    have hT : T ∉ s := hs T (List.mem_cons_self T Ts)
    have hnd1 := List.nodup_cons.mp hnd
    have step : ComponentStore.add s T = .ok (s ++ [T]) := by
      simp [ComponentStore.add, hT]
    have rest : ComponentStore.addAll (s ++ [T]) Ts = .ok ((s ++ [T]) ++ Ts) := by
      apply ih _ hnd1.2
      intro U hU hmem
      rcases List.mem_append.mp hmem with h | h
      · exact hs U (List.mem_cons_of_mem T hU) h
      · have : U = T := by simpa using h
        exact hnd1.1 (this ▸ hU)
    simp [ComponentStore.addAll, step, rest]

/-- The adds the file makes on any one object are pairwise of different types. -/
theorem addsOn_nodup (o : Obj) : (addsOn o (.applicationGet :: generateScene)).Nodup := by
  cases o <;> decide

/-- C1: after `_CreateScene`, exactly one object was created with the name "Plane";
it received exactly one `RenderComponent` and exactly one `RigidBody`, the latter
added with an empty argument list (so static, the default); that `RigidBody`
received exactly one collider, a `BoxCollider` with half-extents (50,50,1), and the
only position set on that collider is (0,0,-1). -/
theorem plane_components_and_collider (sceneJsonExists : Bool) :
    objectsNamed "Plane" (_CreateScene sceneJsonExists) = [Obj.plane]
    ∧ (addsOn .plane (_CreateScene sceneJsonExists)).count .RenderComponent = 1
    ∧ (addsOn .plane (_CreateScene sceneJsonExists)).count .RigidBody = 1
    ∧ rigidBodyArgsOn .plane (_CreateScene sceneJsonExists) = [none]
    ∧ (rigidBodyArgsOn .plane (_CreateScene sceneJsonExists)).map RigidBody.typeOfArg
        = [RigidBodyType.Static]
    ∧ collidersOn .plane (_CreateScene sceneJsonExists) = [Collider.box ⟨50, 50, 1⟩]
    ∧ colliderPositionsOn .plane (_CreateScene sceneJsonExists) = [⟨0, 0, -1⟩] := by
  rw [createScene_eq]
  decide

/-- C2: `_CreateScene` touches 18 game objects, the main-camera object and the 17 it
creates; on each of them, and for each component type `T`, it calls `Add<T>()` at
most once.  Hence on any object whose store holds none of the added types
beforehand (a freshly created object in particular) every `Add` of the file
succeeds: no `DuplicateComponent`. -/
theorem add_at_most_once_per_object_and_type (sceneJsonExists : Bool) :
    touchedObjects (_CreateScene sceneJsonExists)
        = [.camera, .plane, .character, .enemyMage, .rock, .sword, .grate, .lever,
           .spike1, .spike2, .wall1, .wall2, .wall3, .wall4, .wall5, .wall6, .wall7,
           .wall8]
    ∧ createdObjects (_CreateScene sceneJsonExists)
        = [.plane, .character, .enemyMage, .rock, .sword, .grate, .lever,
           .spike1, .spike2, .wall1, .wall2, .wall3, .wall4, .wall5, .wall6, .wall7,
           .wall8]
    ∧ (createdObjects (_CreateScene sceneJsonExists)).length = 17
    ∧ (∀ (o : Obj) (T : CompType), (addsOn o (_CreateScene sceneJsonExists)).count T ≤ 1)
    ∧ (∀ (o : Obj) (before : ComponentStore),
        (∀ T ∈ addsOn o (_CreateScene sceneJsonExists), T ∉ before) →
        ComponentStore.addAll before (addsOn o (_CreateScene sceneJsonExists))
          = .ok (before ++ addsOn o (_CreateScene sceneJsonExists))) := by
  rw [createScene_eq]
  refine ⟨by decide, by decide, by decide, ?_, ?_⟩
  · intro o T
    exact List.nodup_iff_count_le_one.mp (addsOn_nodup o) T
  · intro o before h
    exact ComponentStore.addAll_ok _ before (addsOn_nodup o) h

/-- The camera object, holding the scene's own `Camera` component beforehand, takes
the file's `Add<SimpleCameraControl>()` without a `DuplicateComponent`. -/
theorem add_at_most_once_per_object_and_type_witness :
    (∀ T ∈ addsOn .camera (_CreateScene false), T ∉ ([CompType.Camera] : ComponentStore))
    ∧ ComponentStore.addAll [CompType.Camera] (addsOn .camera (_CreateScene false))
        = .ok ([CompType.Camera] ++ addsOn .camera (_CreateScene false)) :=
  ⟨by decide,
   (add_at_most_once_per_object_and_type false).2.2.2.2 .camera [CompType.Camera] (by decide)⟩

/-- C3: one run of `_CreateScene` calls `RegisterType` exactly once, for
`CharacterMovement`, so at most once per type; the only `Add<CharacterMovement>()`
is the one on "Character", and the registration comes before it.  A registry that
does not hold `CharacterMovement` when the run starts therefore takes every
registration of the run: no `AlreadyRegistered`. -/
theorem registerType_once_before_add (sceneJsonExists : Bool) :
    registrations (_CreateScene sceneJsonExists) = [CompType.CharacterMovement]
    ∧ (∀ T : CompType, (registrations (_CreateScene sceneJsonExists)).count T ≤ 1)
    ∧ addCallsOf .CharacterMovement (_CreateScene sceneJsonExists)
        = [Op.add .character .CharacterMovement none]
    ∧ (_CreateScene sceneJsonExists).indexOf (Op.registerType .CharacterMovement)
        < (_CreateScene sceneJsonExists).indexOf (Op.add .character .CharacterMovement none)
    ∧ (_CreateScene sceneJsonExists).indexOf (Op.add .character .CharacterMovement none)
        < (_CreateScene sceneJsonExists).length
    ∧ (∀ r : TypeRegistry, CompType.CharacterMovement ∉ r →
        TypeRegistry.registerAll r (registrations (_CreateScene sceneJsonExists))
          = .ok (r ++ [CompType.CharacterMovement])) := by
  rw [createScene_eq]
  refine ⟨by decide, ?_, by decide, by decide, by decide, ?_⟩
  · intro T
    cases T <;> decide
  · intro r hr
    have h : registrations (Op.applicationGet :: generateScene)
        = [CompType.CharacterMovement] := by decide
    rw [h]
    simp [TypeRegistry.registerAll, TypeRegistry.registerType, hr]

/-- The empty registry takes the run's registration of `CharacterMovement`. -/
theorem registerType_once_before_add_witness :
    CompType.CharacterMovement ∉ ([] : TypeRegistry)
    ∧ TypeRegistry.registerAll [] (registrations (_CreateScene true))
        = .ok ([] ++ [CompType.CharacterMovement]) :=
  ⟨by decide, (registerType_once_before_add true).2.2.2.2.2 [] (by decide)⟩

/-- C4: the first statement of `_CreateScene` that touches `scene->Lights` is
`resize(3)`, the only resize; every index written afterwards is 0, 1 or 2, hence
below 3; and whatever the number of slots before the run, no access of the run is
out of range and the run ends with 3 slots. -/
theorem light_indices_in_bounds (sceneJsonExists : Bool) :
    ((_CreateScene sceneJsonExists).filter isLightOp).head? = some (Op.lightsResize 3)
    ∧ ((_CreateScene sceneJsonExists).filter isLightOp).tail
        = [ .lightSetPosition 0 ⟨0, 1, 3⟩, .lightSetColor 0 ⟨1, 1, 1⟩,
            .lightSetRange 0 2000,
            .lightSetPosition 1 ⟨1, 0, 3⟩, .lightSetColor 1 ⟨0.2, 0.8, 0.1⟩,
            .lightSetPosition 2 ⟨0, 1, 3⟩, .lightSetColor 2 ⟨1, 0.2, 0.1⟩ ]
    ∧ lightIndices (_CreateScene sceneJsonExists) = [0, 0, 0, 1, 1, 2, 2]
    ∧ (∀ i ∈ lightIndices (_CreateScene sceneJsonExists), i < 3)
    ∧ (∀ slotsBefore : Nat,
        lightsRun slotsBefore (_CreateScene sceneJsonExists) = .ok 3) := by
  rw [createScene_eq]
  refine ⟨by decide, by decide, by decide, by decide, ?_⟩
  intro slotsBefore
  rfl

/-- C5: `OnAppLoad` performs the same sequence of calls for any two configuration
values, and for either state of the file system: the same `CreateGameObject` names
in the same order, and on each object the same `Add<T>()` calls and the same
transform values in the same order. -/
theorem OnAppLoad_independent_of_config (c1 c2 : Json) (exists1 exists2 : Bool) :
    OnAppLoad c1 exists1 = OnAppLoad c2 exists2
    ∧ createdObjects (OnAppLoad c1 exists1) = createdObjects (OnAppLoad c2 exists2)
    ∧ (∀ o : Obj, addsOn o (OnAppLoad c1 exists1) = addsOn o (OnAppLoad c2 exists2))
    ∧ (∀ o : Obj, transformCallsOn o (OnAppLoad c1 exists1)
        = transformCallsOn o (OnAppLoad c2 exists2)) := by
  have h : OnAppLoad c1 exists1 = OnAppLoad c2 exists2 := by
    unfold OnAppLoad
    rw [createScene_eq, createScene_eq]
  refine ⟨h, ?_, ?_, ?_⟩
  · rw [h]
  · intro o
    rw [h]
  · intro o
    rw [h]

/-- C6: the calls `_CreateScene` makes on the camera's transform are `SetPostion`
(-8,0,10), `SetRotation` (45,-6,-90), `LookAt` (0,0,0), in this order; the position
differs from the target, so `LookAt` is not on its degenerate path; and, whatever
the camera's transform before the run, its rotation after the run is the one
`LookAt` derives from (-8,0,10) and (0,0,0), not the Euler value of `SetRotation`. -/
theorem camera_lookAt_not_degenerate (sceneJsonExists : Bool) (before : Transform) :
    transformCallsOn .camera (_CreateScene sceneJsonExists)
        = [ .setPostion .camera ⟨-8, 0, 10⟩, .setRotation .camera ⟨45, -6, -90⟩,
            .lookAt .camera ⟨0, 0, 0⟩ ]
    ∧ (transformOf .camera before (_CreateScene sceneJsonExists)).position = ⟨-8, 0, 10⟩
    ∧ (⟨-8, 0, 10⟩ : Vec3) ≠ ⟨0, 0, 0⟩
    ∧ (transformOf .camera before (_CreateScene sceneJsonExists)).rotation
        = Rotation.facing ⟨-8, 0, 10⟩ ⟨0, 0, 0⟩
    ∧ (transformOf .camera before (_CreateScene sceneJsonExists)).rotation
        ≠ Rotation.euler ⟨45, -6, -90⟩ := by
  rw [createScene_eq]
  have hrot : (transformOf .camera before (Op.applicationGet :: generateScene)).rotation
      = Rotation.facing ⟨-8, 0, 10⟩ ⟨0, 0, 0⟩ := rfl
  refine ⟨by decide, rfl, by decide, hrot, ?_⟩
  rw [hrot]
  decide

/-- C8: the only collider `_CreateScene` attaches to the `RigidBody` of "Plane" is a
`BoxCollider` with the finite half-extents (50,50,1); it is not a plane collider,
and no plane collider is attached to any object. -/
theorem plane_collider_is_a_box (sceneJsonExists : Bool) :
    collidersOn .plane (_CreateScene sceneJsonExists) = [Collider.box ⟨50, 50, 1⟩]
    ∧ Collider.plane ∉ collidersOn .plane (_CreateScene sceneJsonExists)
    ∧ (∀ o : Obj, Collider.plane ∉ collidersOn o (_CreateScene sceneJsonExists)) := by
  rw [createScene_eq]
  refine ⟨by decide, by decide, ?_⟩
  intro o
  cases o <;> decide

/-- C9: whether or not `scene.json` exists, `_CreateScene` makes no call of the path
overload `app.LoadScene("scene.json")`; it runs the generate branch, which creates
the 17 objects and ends in `app.LoadScene(scene)`. -/
theorem always_generates_never_loads (sceneJsonExists : Bool) :
    Op.appLoadSceneFile "scene.json" ∉ _CreateScene sceneJsonExists
    ∧ (_CreateScene sceneJsonExists).filter isLoadFromFile = []
    ∧ _CreateScene sceneJsonExists = Op.applicationGet :: generateScene
    ∧ (createdObjects (_CreateScene sceneJsonExists)).length = 17
    ∧ (_CreateScene sceneJsonExists).getLast? = some Op.appLoadScene := by
  rw [createScene_eq]
  refine ⟨by decide, by decide, rfl, by decide, by decide⟩

/-- C10: in every run of `_CreateScene`, `scene->Save("scene.json")` is called exactly
once; everything before it includes all 17 `CreateGameObject` calls and every call
that changes the scene; the call right before it is
`ResourceManager::SaveManifest("scene-manifest.json")`; and the only call after it
is `app.LoadScene(scene)`, so nothing changes the scene after `Save`. -/
theorem save_after_authoring (sceneJsonExists : Bool) :
    (_CreateScene sceneJsonExists).filter isSave = [Op.save "scene.json"]
    ∧ (createdObjects ((_CreateScene sceneJsonExists).take
          ((_CreateScene sceneJsonExists).indexOf (Op.save "scene.json")))).length = 17
    ∧ ((_CreateScene sceneJsonExists).take
          ((_CreateScene sceneJsonExists).indexOf (Op.save "scene.json"))).filter mutatesScene
        = (_CreateScene sceneJsonExists).filter mutatesScene
    ∧ ((_CreateScene sceneJsonExists).take
          ((_CreateScene sceneJsonExists).indexOf (Op.save "scene.json"))).getLast?
        = some (Op.saveManifest "scene-manifest.json")
    ∧ (_CreateScene sceneJsonExists).drop
          ((_CreateScene sceneJsonExists).indexOf (Op.save "scene.json") + 1)
        = [Op.appLoadScene]
    ∧ (∀ op ∈ (_CreateScene sceneJsonExists).drop
          ((_CreateScene sceneJsonExists).indexOf (Op.save "scene.json") + 1),
        mutatesScene op = false) := by
  rw [createScene_eq]
  decide

/-- C11: the objects to which `_CreateScene` attaches a `ConvexMeshCollider` are
"Character", "Enemy", "Rock", "sword", "Grate", "Lever", "spike" and "spike 2"; on
each of them the `RigidBody` receives exactly one collider, the object's scale and
the collider's scale are each set exactly once, to the same value, and that value
is uniform on the three axes. -/
theorem convexMesh_collider_scale_matches_object (sceneJsonExists : Bool) :
    convexMeshObjects (_CreateScene sceneJsonExists)
        = [.character, .enemyMage, .rock, .sword, .grate, .lever, .spike1, .spike2]
    ∧ (createdNames (_CreateScene sceneJsonExists)).filter
          (fun p => decide (p.1 ∈ convexMeshObjects (_CreateScene sceneJsonExists)))
        = [(.character, "Character"), (.enemyMage, "Enemy"), (.rock, "Rock"),
           (.sword, "sword"), (.grate, "Grate"), (.lever, "Lever"), (.spike1, "spike"),
           (.spike2, "spike 2")]
    ∧ (∀ o ∈ convexMeshObjects (_CreateScene sceneJsonExists),
        (addsOn o (_CreateScene sceneJsonExists)).count .RigidBody = 1
        ∧ collidersOn o (_CreateScene sceneJsonExists) = [Collider.convexMesh]
        ∧ (scalesOn o (_CreateScene sceneJsonExists)).length = 1
        ∧ (colliderScalesOn o (_CreateScene sceneJsonExists)).length = 1
        ∧ colliderScalesOn o (_CreateScene sceneJsonExists)
            = scalesOn o (_CreateScene sceneJsonExists)
        ∧ (scalesOn o (_CreateScene sceneJsonExists)).all Vec3.isUniform = true) := by
  rw [createScene_eq]
  refine ⟨by decide, by decide, ?_⟩
  decide

/-- On "Character" the one collider is the convex mesh, and both scales are 0.2 on
every axis. -/
theorem convexMesh_collider_scale_matches_object_witness :
    Obj.character ∈ convexMeshObjects (_CreateScene false)
    ∧ collidersOn .character (_CreateScene false) = [Collider.convexMesh]
    ∧ colliderScalesOn .character (_CreateScene false) = scalesOn .character (_CreateScene false)
    ∧ scalesOn .character (_CreateScene false) = [⟨0.2, 0.2, 0.2⟩] :=
  have h := (convexMesh_collider_scale_matches_object false).2.2 .character (by decide)
  ⟨by decide, h.2.1, h.2.2.2.2.1, by decide⟩

/-- C12: each of the 17 objects `_CreateScene` creates through `CreateGameObject`
receives exactly one `RenderComponent`, and the calls on that renderer are exactly
one `SetMesh` and one `SetMaterial`, made after the `Add`; the meshes and materials
are the ones listed. -/
theorem every_created_object_has_renderer_mesh_material (sceneJsonExists : Bool) :
    (createdObjects (_CreateScene sceneJsonExists)).length = 17
    ∧ (createdObjects (_CreateScene sceneJsonExists)).Nodup
    ∧ (∀ o ∈ createdObjects (_CreateScene sceneJsonExists),
        (addsOn o (_CreateScene sceneJsonExists)).count .RenderComponent = 1
        ∧ (meshesOn o (_CreateScene sceneJsonExists)).length = 1
        ∧ (materialsOn o (_CreateScene sceneJsonExists)).length = 1
        ∧ isAddMeshMaterial (rendererCallsOn o (_CreateScene sceneJsonExists)) = true)
    ∧ (createdNames (_CreateScene sceneJsonExists)).map
          (fun p => (p.2, meshesOn p.1 (_CreateScene sceneJsonExists),
                     materialsOn p.1 (_CreateScene sceneJsonExists)))
        = [ ("Plane", ["tiledMesh"], ["stoneMat"]),
            ("Character", ["CharacterMesh"], ["characterMat"]),
            ("Enemy", ["magemesh"], ["mageMat"]),
            ("Rock", ["RockMesh"], ["rockMat"]),
            ("sword", ["SwordMesh"], ["swordMat"]),
            ("Grate", ["WallGrateMesh"], ["grateMat"]),
            ("Lever", ["LeverMesh"], ["leverMat"]),
            ("spike", ["spikeMesh"], ["spikeMat"]),
            ("spike 2", ["spikeMesh"], ["spikeMat"]),
            ("Wall 1", ["wallMesh"], ["wallMat"]),
            ("Wall 2", ["wallMesh"], ["wallMat"]),
            ("Wall 3", ["wallMesh"], ["wallMat"]),
            ("Wall 4", ["wallMesh"], ["wallMat"]),
            ("Wall 5", ["wallMesh"], ["wallMat"]),
            ("Wall 6", ["wallMesh"], ["wallMat"]),
            ("Wall 7", ["wallMesh"], ["wallMat"]),
            ("Wall 8", ["wallMesh"], ["wallMat"]) ] := by
  rw [createScene_eq]
  refine ⟨by decide, by decide, ?_, by decide⟩
  decide

/-- On "Wall 8", the last object created, the renderer is added once and gets
`wallMesh` and `wallMat`. -/
theorem every_created_object_has_renderer_mesh_material_witness :
    Obj.wall8 ∈ createdObjects (_CreateScene true)
    ∧ (addsOn .wall8 (_CreateScene true)).count .RenderComponent = 1
    ∧ (meshesOn .wall8 (_CreateScene true)).length = 1
    ∧ (materialsOn .wall8 (_CreateScene true)).length = 1 :=
  have h := (every_created_object_has_renderer_mesh_material true).2.2.1 .wall8 (by decide)
  ⟨by decide, h.1, h.2.1, h.2.2.1⟩

end DefaultSceneLayer
